import Mathlib

/-!
Shallow embedding of the star-rating repository: the rating-state map and its
container operations (`VirtualizedRatingList.tsx`, `RatingListContainer.tsx`),
the load tracker (`loadMoreItems`, `isItemLoaded`), the scroll logic, and the
`RatingForm` widget, together with theorems settling the specification claims.
-/

/-- `TOTAL_ITEMS` constant from `VirtualizedRatingList.tsx` (100 items). -/
def TOTAL_ITEMS : ℕ := 100

/-- `ITEMS_PER_ROW` constant from `VirtualizedRatingList.tsx` (2 columns). -/
def ITEMS_PER_ROW : ℕ := 2

/-- `TOTAL_ROWS = Math.ceil(TOTAL_ITEMS / ITEMS_PER_ROW)` (50 rows). -/
def TOTAL_ROWS : ℕ := (TOTAL_ITEMS + ITEMS_PER_ROW - 1) / ITEMS_PER_ROW

/-- Per-item rating state, `{ rating: number | null; isSubmitted: boolean }`.
`rating = none` models JavaScript `null`. -/
structure RatingState where
  rating : Option ℤ
  isSubmitted : Bool
deriving DecidableEq

/-- The container's `ratingsState` object, `Record<string, RatingState>`,
modelled as an association list with unique keys in insertion order. -/
abbrev RatingsMap : Type := List (String × RatingState)

/-- Property lookup `ratingsState[id]`: `none` models an absent key. -/
def lookupRating (m : RatingsMap) (id : String) : Option RatingState :=
  match m with
  | [] => none
  | p :: rest => if p.1 == id then some p.2 else lookupRating rest id

/-- Object-spread upsert `{ ...prev, [id]: v }`: replaces the value at an
existing key in place, appends a new key at the end. -/
def upsert (m : RatingsMap) (id : String) (v : RatingState) : RatingsMap :=
  match m with
  | [] => [(id, v)]
  | p :: rest => if p.1 == id then (id, v) :: rest else p :: upsert rest id v

/-- The item identifier `item-${itemIndex}` used by the row renderer. -/
def itemId (i : ℕ) : String := "item-" ++ toString i

/-- `handleRatingChange(id, rating)`: upserts
`{ rating, isSubmitted: prevState[id]?.isSubmitted ?? false }`. -/
def handleRatingChange (id : String) (rating : Option ℤ) (m : RatingsMap) :
    RatingsMap :=
  upsert m id
    { rating := rating
      isSubmitted :=
        match lookupRating m id with
        | some e => e.isSubmitted
        | none => false }

/-- `handleRatingSubmit(id, rating)`: upserts `{ rating, isSubmitted: true }`
unconditionally. -/
def handleRatingSubmit (id : String) (rating : ℤ) (m : RatingsMap) :
    RatingsMap :=
  upsert m id { rating := some rating, isSubmitted := true }

/-- `handleRatingReset(id)`: `delete newState[id]`, removing the entry. -/
def handleRatingReset (id : String) (m : RatingsMap) : RatingsMap :=
  m.filter (fun p => p.1 != id)

/-- `resetAllRatings`: `setRatingsState({})`, clearing the whole map. -/
def resetAllRatings (_m : RatingsMap) : RatingsMap := []

/-- Number of entries with `isSubmitted == true`
(`Object.values(ratingsState).filter((item) => item.isSubmitted).length`). -/
def submittedCount (m : RatingsMap) : ℕ :=
  (m.filter (fun p => p.2.isSubmitted)).length

/-- `calculateProgress` from `RatingListContainer.tsx`:
`Math.round((submittedCount / totalItems) * 100)` with `totalItems = 100`,
over exact rational arithmetic. -/
def calculateProgress (m : RatingsMap) : ℤ :=
  round (((submittedCount m : ℚ) / 100) * 100)

/-- The clamped item-index range covered by rows `startRow..stopRow` in
`loadMoreItems`: `[startRow*ITEMS_PER_ROW,
min(stopRow*ITEMS_PER_ROW + (ITEMS_PER_ROW - 1), TOTAL_ITEMS - 1)]`. -/
def itemRange (startRow stopRow : ℕ) : Finset ℕ :=
  Finset.Icc (startRow * ITEMS_PER_ROW)
    (min (stopRow * ITEMS_PER_ROW + (ITEMS_PER_ROW - 1)) (TOTAL_ITEMS - 1))

/-- The effect of a `loadMoreItems(startRow, stopRow)` timeout callback on the
`loadedItems` record: it builds `newLoadedItems = { ...loadedItems }` from the
closure's captured `loadedItems` value (the `snapshot`), marks the range, and
stores the result with `setLoadedItems`. -/
def loadComplete (snapshot : Finset ℕ) (startRow stopRow : ℕ) : Finset ℕ :=
  snapshot ∪ itemRange startRow stopRow

/-- Loader component state: the committed `loadedItems` record plus the
in-flight `loadMoreItems` calls, each remembering the `loadedItems` value its
closure captured when the call was initiated. -/
structure LoaderState where
  loadedItems : Finset ℕ
  pending : List (Finset ℕ × ℕ × ℕ)
deriving DecidableEq

/-- Initiating `loadMoreItems(startRow, stopRow)`: the promise's timeout
callback closes over the current `loadedItems` value. -/
def initLoad (st : LoaderState) (startRow stopRow : ℕ) : LoaderState :=
  { st with pending := st.pending ++ [(st.loadedItems, startRow, stopRow)] }

/-- The oldest pending call's timeout fires: `setLoadedItems(newLoadedItems)`
replaces the committed record with `snapshot ∪ range`. -/
def completeLoad (st : LoaderState) : LoaderState :=
  match st.pending with
  | [] => st
  | (snap, a, b) :: rest =>
      { loadedItems := loadComplete snap a b, pending := rest }

/-- Trace for the overlapping-loads scenario, after the first completion:
`loadMoreItems(0, 0)` and `loadMoreItems(2, 2)` are initiated from the empty
state before either completes, then the first call's timeout fires. -/
def midTrace : LoaderState :=
  completeLoad (initLoad (initLoad ⟨∅, []⟩ 0 0) 2 2)

/-- The same trace after the second call's timeout also fires. -/
def overlapTrace : LoaderState :=
  completeLoad midTrace

/-- `isItemLoaded(index)` from `VirtualizedRatingList.tsx`: converts the row
index to item indices with `itemsInRow = Math.min(ITEMS_PER_ROW,
TOTAL_ITEMS - startItemIndex)` (a possibly negative JavaScript number, hence
`ℤ`) and checks that each of those items is in the loaded record. -/
def isItemLoaded (loaded : Finset ℕ) (index : ℕ) : Bool :=
  let startItemIndex := index * ITEMS_PER_ROW
  let itemsInRow : ℤ :=
    min (ITEMS_PER_ROW : ℤ) ((TOTAL_ITEMS : ℤ) - (startItemIndex : ℤ))
  (List.range itemsInRow.toNat).all
    (fun i => decide ((startItemIndex + i) ∈ loaded))

/-- Combined state of the list component as seen by the container: the ratings
map owned by `VirtualizedRatingList` (mirrored upward through
`onRatingStateChange`) plus the loader's committed record and counter. -/
structure AppState where
  ratingsState : RatingsMap
  loadedItems : Finset ℕ
  numItemsLoaded : ℕ
deriving DecidableEq

/-- The `resetAllRatings` callback as registered on
`window.VirtualizedRatingListAPI`: it runs `setRatingsState({})` and notifies
the parent; it touches neither `loadedItems` nor `numItemsLoaded`. -/
def resetAllRatingsApp (st : AppState) : AppState :=
  { st with ratingsState := resetAllRatings st.ratingsState }

/-- `handleGlobalReset` from `RatingListContainer.tsx`: on affirmative
`window.confirm` it invokes the registered `resetAllRatings`; otherwise it
does nothing. -/
def handleGlobalReset (confirmed : Bool) (st : AppState) : AppState :=
  if confirmed then resetAllRatingsApp st else st

/-- Concrete pre-reset state: one submitted rating and items 0 and 1 loaded. -/
def appBeforeReset : AppState :=
  { ratingsState := [(itemId 0, { rating := some 4, isSubmitted := true })]
    loadedItems := {0, 1}
    numItemsLoaded := 2 }

/-- Viewport-carrying state of the list component for the scroll logic. -/
structure ViewState where
  loadedItems : Finset ℕ
  numItemsLoaded : ℕ
  scrollOffset : ℤ
  isAtTop : Bool
  isAtBottom : Bool
deriving DecidableEq

/-- `scrollToBottom` from `VirtualizedRatingList.tsx`: it calls
`loadMoreItems(0, TOTAL_ROWS - 1)` and, once that resolves, scrolls to
`maxScrollOffset = TOTAL_ROWS * itemHeight - listHeight` and flips the
at-top/at-bottom flags. The returned pair records the row range passed to
`loadMoreItems`; the returned state is the post-resolution state. -/
def scrollToBottom (itemHeight listHeight : ℤ) (st : ViewState) :
    (ℕ × ℕ) × ViewState :=
  let loaded := loadComplete st.loadedItems 0 (TOTAL_ROWS - 1)
  ((0, TOTAL_ROWS - 1),
   { loadedItems := loaded
     numItemsLoaded := loaded.card
     scrollOffset := (TOTAL_ROWS : ℤ) * itemHeight - listHeight
     isAtTop := false
     isAtBottom := true })

/-- Initial viewport state of a freshly mounted list. -/
def viewInit : ViewState :=
  { loadedItems := ∅
    numItemsLoaded := 0
    scrollOffset := 0
    isAtTop := true
    isAtBottom := false }

/-- Props of the `RatingForm` widget. `externalRating = none` models the
`externalRating` prop being `undefined` (not supplied); `some r` models a
supplied value, itself possibly `null`. Likewise for `isExternallySubmitted`.
The three booleans record whether the corresponding callback prop was
supplied. -/
structure RatingFormProps where
  id : String
  externalRating : Option (Option ℤ)
  isExternallySubmitted : Option Bool
  hasOnRatingChange : Bool
  hasOnSubmit : Bool
  hasOnReset : Bool
deriving DecidableEq

/-- The widget's transient local state (`localRating`, `localIsSubmitted`). -/
structure WidgetLocal where
  localRating : Option ℤ
  localIsSubmitted : Bool
deriving DecidableEq

/-- Initial local state of a freshly mounted widget. -/
def widgetInit : WidgetLocal := { localRating := none, localIsSubmitted := false }

/-- One callback invocation emitted by the widget. -/
inductive CallbackCall where
  | ratingChange (id : String) (rating : Option ℤ)
  | submitRating (id : String) (rating : ℤ)
  | resetRating (id : String)
deriving DecidableEq

/-- `rating = externalRating !== undefined ? externalRating : localRating`. -/
def effectiveRating (p : RatingFormProps) (st : WidgetLocal) : Option ℤ :=
  match p.externalRating with
  | some r => r
  | none => st.localRating

/-- `isSubmitted = isExternallySubmitted !== undefined ?
isExternallySubmitted : localIsSubmitted`. -/
def effectiveSubmitted (p : RatingFormProps) (st : WidgetLocal) : Bool :=
  match p.isExternallySubmitted with
  | some b => b
  | none => st.localIsSubmitted

/-- `handleStarClick(selectedRating)`: guarded on `!isSubmitted`; calls
`onRatingChange(id, selectedRating)` when that callback is supplied, else
`setLocalRating(selectedRating)`. Returns the new local state and the list of
callback invocations. -/
def handleStarClick (p : RatingFormProps) (st : WidgetLocal)
    (selectedRating : ℤ) : WidgetLocal × List CallbackCall :=
  if effectiveSubmitted p st then (st, [])
  else if p.hasOnRatingChange then
    (st, [CallbackCall.ratingChange p.id (some selectedRating)])
  else ({ st with localRating := some selectedRating }, [])

/-- `handleSubmit()`: guarded on `rating !== null && !isSubmitted`; calls
`onSubmit(id, rating)` when that callback is supplied, else
`setLocalIsSubmitted(true)`. -/
def handleSubmit (p : RatingFormProps) (st : WidgetLocal) :
    WidgetLocal × List CallbackCall :=
  match effectiveRating p st, effectiveSubmitted p st with
  | some r, false =>
      if p.hasOnSubmit then (st, [CallbackCall.submitRating p.id r])
      else ({ st with localIsSubmitted := true }, [])
  | _, _ => (st, [])

/-- `handleReset()`: calls `onReset(id)` when supplied, else clears both local
values. -/
def handleReset (p : RatingFormProps) (st : WidgetLocal) :
    WidgetLocal × List CallbackCall :=
  if p.hasOnReset then (st, [CallbackCall.resetRating p.id])
  else ({ localRating := none, localIsSubmitted := false }, [])

/-- Controlled widget props with external state but no callbacks supplied —
a combination the prop types of `RatingForm` admit. -/
def controlledNoCallbacks : RatingFormProps :=
  { id := itemId 0
    externalRating := some (some 3)
    isExternallySubmitted := some false
    hasOnRatingChange := false
    hasOnSubmit := false
    hasOnReset := false }

/-- Controlled widget props with a `null` external rating and no callbacks. -/
def controlledNullNoCallbacks : RatingFormProps :=
  { id := itemId 0
    externalRating := some none
    isExternallySubmitted := some false
    hasOnRatingChange := false
    hasOnSubmit := false
    hasOnReset := false }

/-- The props the row renderer passes to the widget for item `i`:
`externalRating = ratingsState[id]?.rating ?? null`,
`isExternallySubmitted = ratingsState[id]?.isSubmitted ?? false`, and all
three callbacks wired to the container's handlers. -/
def wiredProps (m : RatingsMap) (i : ℕ) : RatingFormProps :=
  { id := itemId i
    externalRating :=
      some (match lookupRating m (itemId i) with
            | some e => e.rating
            | none => none)
    isExternallySubmitted :=
      some (match lookupRating m (itemId i) with
            | some e => e.isSubmitted
            | none => false)
    hasOnRatingChange := true
    hasOnSubmit := true
    hasOnReset := true }

/-- Dispatch one emitted callback invocation to the container's handler. -/
def applyCall (m : RatingsMap) (c : CallbackCall) : RatingsMap :=
  match c with
  | CallbackCall.ratingChange id r => handleRatingChange id r m
  | CallbackCall.submitRating id r => handleRatingSubmit id r m
  | CallbackCall.resetRating id => handleRatingReset id m

/-- A user interaction on the rendered UI: clicking one of the five star
buttons of item `i` (the buttons exist only for stars 1..5, hence `Fin 5`),
the submit button, the per-item reset button, or the confirmed global reset. -/
inductive UIEvent where
  | starClick (i : ℕ) (k : Fin 5)
  | submitClick (i : ℕ)
  | resetClick (i : ℕ)
  | globalResetClick
deriving DecidableEq

/-- One step of the closed system: the widget for item `i` — controlled with
the map's state and all callbacks wired — handles the interaction, and the
emitted callbacks are applied to the container's map. -/
def uiStep (m : RatingsMap) (e : UIEvent) : RatingsMap :=
  match e with
  | UIEvent.starClick i k =>
      ((handleStarClick (wiredProps m i) widgetInit ((k : ℕ) + 1 : ℤ)).2).foldl
        applyCall m
  | UIEvent.submitClick i =>
      ((handleSubmit (wiredProps m i) widgetInit).2).foldl applyCall m
  | UIEvent.resetClick i =>
      ((handleReset (wiredProps m i) widgetInit).2).foldl applyCall m
  | UIEvent.globalResetClick => resetAllRatings m

/-- The property claimed of every entry: a submitted entry carries a present
rating in `[1,5]`. -/
def ratingInRange (e : RatingState) : Prop :=
  match e.rating with
  | some r => 1 ≤ r ∧ r ≤ 5
  | none => False

instance (e : RatingState) : Decidable (ratingInRange e) := by
  unfold ratingInRange
  cases e.rating <;> infer_instance

/-- The claimed invariant on the whole map. -/
def claimedInvariant (m : RatingsMap) : Prop :=
  ∀ p ∈ m, p.2.isSubmitted = true → ratingInRange p.2

instance (m : RatingsMap) : Decidable (claimedInvariant m) := by
  unfold claimedInvariant
  infer_instance

/-- Strengthened inductive invariant: every present rating lies in `[1,5]`,
and a submitted entry has a present rating. -/
def entryOk (e : RatingState) : Prop :=
  (match e.rating with
   | some r => 1 ≤ r ∧ r ≤ 5
   | none => True) ∧ (e.isSubmitted = true → e.rating ≠ none)

/-- `entryOk` lifted to the whole map. -/
def mapOk (m : RatingsMap) : Prop := ∀ p ∈ m, entryOk p.2

/-- A ratings map with exactly 37 submitted entries (items 0..36 rated 4). -/
def progressMap37 : RatingsMap :=
  (List.range 37).map
    (fun i => (itemId i, { rating := some 4, isSubmitted := true }))

/-- Controlled widget props exactly as the Coordinator supplies them: external
state and all three callbacks. -/
def controlledWiredProps : RatingFormProps :=
  { id := itemId 1
    externalRating := some (some 3)
    isExternallySubmitted := some false
    hasOnRatingChange := true
    hasOnSubmit := true
    hasOnReset := true }

/-- Standalone widget props: all optional props left out, as in
`<RatingForm />` (the default `id` is `"default"`). -/
def uncontrolledProps : RatingFormProps :=
  { id := "default"
    externalRating := none
    isExternallySubmitted := none
    hasOnRatingChange := false
    hasOnSubmit := false
    hasOnReset := false }

/-- Local widget state holding a rating of 3, not yet submitted. -/
def widgetRated : WidgetLocal := { localRating := some 3, localIsSubmitted := false }

/-! ## Helper lemmas -/

theorem lookup_upsert_self (m : RatingsMap) (id : String) (v : RatingState) :
    lookupRating (upsert m id v) id = some v := by
  induction m with
  | nil => simp [upsert, lookupRating]
  | cons q rest ih =>
      by_cases hq : q.1 == id
      · simp [upsert, hq, lookupRating]
      · simp [upsert, hq, lookupRating, ih]

theorem mem_upsert {m : RatingsMap} {id : String} {v : RatingState}
    {p : String × RatingState} (hp : p ∈ upsert m id v) :
    p = (id, v) ∨ p ∈ m := by
  induction m with
  | nil => simpa [upsert] using hp
  | cons q rest ih =>
      by_cases hq : q.1 == id
      · rw [upsert, if_pos hq] at hp
        rcases List.mem_cons.mp hp with h | h
        · exact Or.inl h
        · exact Or.inr (List.mem_cons_of_mem _ h)
      · rw [upsert, if_neg hq] at hp
        rcases List.mem_cons.mp hp with h | h
        · exact Or.inr (h ▸ List.mem_cons_self _ _)
        · rcases ih h with h2 | h2
          · exact Or.inl h2
          · exact Or.inr (List.mem_cons_of_mem _ h2)

theorem lookup_mem {m : RatingsMap} {id : String} {e : RatingState}
    (h : lookupRating m id = some e) : ∃ k, (k, e) ∈ m := by
  induction m with
  | nil => simp [lookupRating] at h
  | cons q rest ih =>
      by_cases hq : q.1 == id
      · simp only [lookupRating, hq, if_pos, Option.some.injEq] at h
        exact ⟨q.1, by rw [← h]; exact List.mem_cons_self _ _⟩
      · simp only [lookupRating, hq, Bool.false_eq_true, if_neg] at h
        obtain ⟨k, hk⟩ := ih h
        exact ⟨k, List.mem_cons_of_mem _ hk⟩

theorem mapOk_upsert {m : RatingsMap} {id : String} {v : RatingState}
    (hm : mapOk m) (hv : entryOk v) : mapOk (upsert m id v) := by
  intro p hp
  rcases mem_upsert hp with rfl | hp2
  · exact hv
  · exact hm p hp2

theorem mapOk_filter {m : RatingsMap} {f : String × RatingState → Bool}
    (hm : mapOk m) : mapOk (m.filter f) := by
  intro p hp
  exact hm p (List.mem_of_mem_filter hp)

theorem calculateProgress_eq_submittedCount (m : RatingsMap) :
    calculateProgress m = submittedCount m := by
  unfold calculateProgress
  rw [div_mul_cancel₀ _ (by norm_num : (100 : ℚ) ≠ 0)]
  exact round_natCast _

theorem uiStep_mapOk (m : RatingsMap) (e : UIEvent) (hm : mapOk m) :
    mapOk (uiStep m e) := by
  cases e with
  | starClick i k =>
      rw [uiStep, handleStarClick]
      by_cases hs : effectiveSubmitted (wiredProps m i) widgetInit
      · rw [if_pos hs]
        exact hm
      · rw [if_neg hs]
        have hc : (wiredProps m i).hasOnRatingChange = true := rfl
        rw [if_pos hc]
        show mapOk (handleRatingChange (wiredProps m i).id
          (some ((k : ℕ) + 1 : ℤ)) m)
        apply mapOk_upsert hm
        constructor
        · have := k.isLt
          constructor
          · omega
          · omega
        · intro _
          simp
  | submitClick i =>
      rw [uiStep, handleSubmit]
      rcases her : effectiveRating (wiredProps m i) widgetInit with - | r <;>
        rcases hes : effectiveSubmitted (wiredProps m i) widgetInit with - | -
      · exact hm
      · exact hm
      · -- rating present and not yet submitted: the onSubmit callback fires
        show mapOk (handleRatingSubmit (itemId i) r m)
        apply mapOk_upsert hm
        -- the submitted rating is the map's own entry, bounded by `mapOk`
        have hrange : 1 ≤ r ∧ r ≤ 5 := by
          rw [effectiveRating] at her
          simp only [wiredProps] at her
          rcases hl : lookupRating m (itemId i) with - | en
          · rw [hl] at her
            simp at her
          · rw [hl] at her
            simp only at her
            obtain ⟨kk, hk⟩ := lookup_mem hl
            have := hm (kk, en) hk
            rw [entryOk, her] at this
            exact this.1
        exact ⟨hrange, fun _ => by simp⟩
      · exact hm
  | resetClick i =>
      rw [uiStep, handleReset]
      have hc : (wiredProps m i).hasOnReset = true := rfl
      rw [if_pos hc]
      show mapOk (handleRatingReset (wiredProps m i).id m)
      exact mapOk_filter hm
  | globalResetClick =>
      intro p hp
      simp [uiStep, resetAllRatings] at hp

theorem foldl_uiStep_mapOk (es : List UIEvent) (m : RatingsMap) (hm : mapOk m) :
    mapOk (es.foldl uiStep m) := by
  induction es generalizing m with
  | nil => exact hm
  | cons e rest ih => exact ih (uiStep m e) (uiStep_mapOk m e hm)

/-! ## Claim theorems -/

/-- C1 (counterexample): invoking the confirmed global reset on a state with
one submitted rating and items 0 and 1 loaded clears the ratings map, but the
loaded record and `numItemsLoaded` are untouched (there is no load-tracker
reset in the code): `numItemsLoaded` stays 2 — not 0 — and row 0 is still
reported loaded rather than reverting to the placeholder appearance. -/
theorem globalReset_does_not_unload_rows :
    (handleGlobalReset true appBeforeReset).ratingsState = [] ∧
    (handleGlobalReset true appBeforeReset).numItemsLoaded = 2 ∧
    (handleGlobalReset true appBeforeReset).loadedItems = {0, 1} ∧
    isItemLoaded (handleGlobalReset true appBeforeReset).loadedItems 0 = true := by
  decide

/-- C1 (amended): the confirmed global reset clears the entire itemId-to-state
map — every entry becomes absent and the progress percentage becomes 0 — but
it does not touch the loaded set: `loadedItems` and `numItemsLoaded` are
unchanged, and an unconfirmed reset changes nothing. -/
theorem globalReset_clears_ratings_only (st : AppState) :
    (handleGlobalReset true st).ratingsState = [] ∧
    (∀ id, lookupRating (handleGlobalReset true st).ratingsState id = none) ∧
    calculateProgress (handleGlobalReset true st).ratingsState = 0 ∧
    (handleGlobalReset true st).loadedItems = st.loadedItems ∧
    (handleGlobalReset true st).numItemsLoaded = st.numItemsLoaded ∧
    handleGlobalReset false st = st := by
  refine ⟨rfl, fun id => rfl, ?_, rfl, rfl, rfl⟩
  rw [calculateProgress_eq_submittedCount]
  rfl

/-- C2 (code bug, evaluated at the failing input): two overlapping
`loadMoreItems` calls — rows 0..0 and rows 2..2 — are initiated from the empty
loaded set before either resolves. Each completion writes
`snapshot ∪ range` where `snapshot` is the stale closure capture, so after the
first completion items 0 and 1 are loaded, but the second completion replaces
the whole set with `{} ∪ {4, 5}`: index 0 is lost although no reset ever ran,
contradicting the claimed union semantics and monotonicity. -/
theorem overlapping_loads_lose_loaded_indices :
    midTrace.loadedItems = {0, 1} ∧
    overlapTrace.loadedItems = {4, 5} ∧
    0 ∈ midTrace.loadedItems ∧
    0 ∉ overlapTrace.loadedItems ∧
    overlapTrace.pending = [] := by decide

/-- C3 (counterexample): the claimed invariant is not preserved by arbitrary
Container operations: `handleRatingSubmit` with rating 7 on the empty map
produces an entry with `isSubmitted = true` whose rating lies outside
`[1,5]`. -/
theorem container_submit_outside_range_breaks_invariant :
    ¬ claimedInvariant (handleRatingSubmit (itemId 0) 7 []) := by decide

/-- C3 (amended): restricted to the interactions the rendered widgets can
emit — star clicks on the five star buttons (values 1..5, gated on the entry
not being submitted), submit (gated on a present rating and not submitted,
passing the entry's current rating), per-item reset, and global reset — every
reachable map state satisfies the invariant: a submitted entry carries a
present rating in `[1,5]`. -/
theorem ui_events_preserve_rating_invariant (es : List UIEvent)
    (p : String × RatingState) (hp : p ∈ es.foldl uiStep [])
    (hs : p.2.isSubmitted = true) : ratingInRange p.2 := by
  have hok : mapOk (es.foldl uiStep []) :=
    foldl_uiStep_mapOk es [] (by intro q hq; simp at hq)
  have hpok := hok p hp
  rw [entryOk] at hpok
  rcases hr : p.2.rating with - | r
  · exact absurd hr (hpok.2 hs)
  · rw [ratingInRange, hr]
    rw [hr] at hpok
    exact hpok.1

/-- C3 (witness): after clicking star 3 of item 0 and submitting it, the
resulting entry is submitted with rating 3, which the amended theorem bounds
to `[1,5]`. -/
theorem ui_events_preserve_rating_invariant_witness :
    ratingInRange { rating := some 3, isSubmitted := true } :=
  ui_events_preserve_rating_invariant
    [UIEvent.starClick 0 (2 : Fin 5), UIEvent.submitClick 0]
    (itemId 0, { rating := some 3, isSubmitted := true })
    (by decide) (by decide)

/-- C4 (counterexample): a widget given external state (a supplied, `null`
external rating and a supplied submitted flag) but no callbacks — a
combination the prop types admit — writes its local rating on a star click
and reports nothing: the code branches on callback presence, not on external
state presence. -/
theorem controlled_widget_without_callbacks_writes_local :
    controlledNullNoCallbacks.externalRating ≠ none ∧
    controlledNullNoCallbacks.isExternallySubmitted ≠ none ∧
    (handleStarClick controlledNullNoCallbacks widgetInit 3).1.localRating =
      some 3 ∧
    (handleStarClick controlledNullNoCallbacks widgetInit 3).2 = [] := by
  decide

/-- C4 (amended): for every widget given external state together with the
three callbacks — the combination the Coordinator always supplies — no
interaction writes the local state: star click (when not submitted) reports
via `onRatingChange`, submit (when the rating is present and not submitted)
via `onSubmit`, reset via `onReset`, and the displayed rating and submitted
flag are exactly the externally supplied values. -/
theorem controlled_widget_with_callbacks_never_writes_local
    (p : RatingFormProps) (st : WidgetLocal) (k : ℤ)
    (er : Option ℤ) (eb : Bool)
    (hr : p.externalRating = some er) (hb : p.isExternallySubmitted = some eb)
    (hc1 : p.hasOnRatingChange = true) (hc2 : p.hasOnSubmit = true)
    (hc3 : p.hasOnReset = true) :
    (handleStarClick p st k).1 = st ∧
    (eb = false →
      (handleStarClick p st k).2 = [CallbackCall.ratingChange p.id (some k)]) ∧
    (handleSubmit p st).1 = st ∧
    (∀ r, er = some r → eb = false →
      (handleSubmit p st).2 = [CallbackCall.submitRating p.id r]) ∧
    (handleReset p st).1 = st ∧
    (handleReset p st).2 = [CallbackCall.resetRating p.id] ∧
    effectiveRating p st = er ∧ effectiveSubmitted p st = eb := by
  have hER : effectiveRating p st = er := by rw [effectiveRating, hr]
  have hES : effectiveSubmitted p st = eb := by rw [effectiveSubmitted, hb]
  refine ⟨?_, ?_, ?_, ?_, ?_, ?_, hER, hES⟩
  · rw [handleStarClick, hES]
    cases eb <;> simp [hc1]
  · intro he
    subst he
    rw [handleStarClick, hES]
    simp [hc1]
  · rw [handleSubmit, hER, hES]
    cases eb <;> cases er <;> simp [hc2]
  · intro r hr2 he
    subst he
    subst hr2
    rw [handleSubmit, hER, hES]
    simp [hc2]
  · rw [handleReset]
    simp [hc3]
  · rw [handleReset]
    simp [hc3]

/-- C4 (witness): the fully wired controlled widget, on a click of star 4,
keeps its local state and reports `onRatingChange(id, 4)`. -/
theorem controlled_widget_with_callbacks_never_writes_local_witness :
    (handleStarClick controlledWiredProps widgetInit 4).1 = widgetInit ∧
    (handleStarClick controlledWiredProps widgetInit 4).2 =
      [CallbackCall.ratingChange (itemId 1) (some 4)] := by
  have h := controlled_widget_with_callbacks_never_writes_local
    controlledWiredProps widgetInit 4 (some 3) false rfl rfl rfl rfl rfl
  exact ⟨h.1, h.2.1 rfl⟩

/-- C5 (counterexample): a widget in controlled mode (external rating 3 and
external submitted flag supplied) but without an `onSubmit` callback, on
submit, invokes no callback yet changes state (it sets the local submitted
flag), contradicting the claim that a controlled submit invokes
`onSubmit(id, r)` exactly once. -/
theorem submit_without_callback_sets_local_flag :
    controlledNoCallbacks.externalRating = some (some 3) ∧
    controlledNoCallbacks.isExternallySubmitted = some false ∧
    (handleSubmit controlledNoCallbacks widgetInit).2 = [] ∧
    (handleSubmit controlledNoCallbacks widgetInit).1 ≠ widgetInit := by
  decide

/-- C5 (amended): submit is a no-op when the current rating is absent or the
widget is already submitted; otherwise with current rating `r` it invokes
`onSubmit(id, r)` exactly once when that callback is supplied, else sets the
local submitted flag; a second submit invokes no callback provided the
submitted flag is tracked — locally in the uncontrolled case, or by the
parent flipping the external flag to true in the controlled case. -/
theorem handleSubmit_guard_and_callback (p : RatingFormProps)
    (st : WidgetLocal) :
    (effectiveRating p st = none ∨ effectiveSubmitted p st = true →
      handleSubmit p st = (st, [])) ∧
    (∀ r, effectiveRating p st = some r → effectiveSubmitted p st = false →
      p.hasOnSubmit = true →
      handleSubmit p st = (st, [CallbackCall.submitRating p.id r])) ∧
    (∀ r, effectiveRating p st = some r → effectiveSubmitted p st = false →
      p.hasOnSubmit = false →
      handleSubmit p st = ({ st with localIsSubmitted := true }, [])) ∧
    (p.isExternallySubmitted = none → p.hasOnSubmit = false →
      (handleSubmit p (handleSubmit p st).1).2 = []) ∧
    (p.isExternallySubmitted = some true → handleSubmit p st = (st, [])) := by
  refine ⟨?_, ?_, ?_, ?_, ?_⟩
  · intro h
    rw [handleSubmit]
    rcases h with h | h
    · rw [h]
    · rw [h]
      rcases effectiveRating p st <;> rfl
  · intro r hr hs hc
    rw [handleSubmit, hr, hs]
    simp [hc]
  · intro r hr hs hc
    rw [handleSubmit, hr, hs]
    simp [hc]
  · intro hext hc
    have hes : ∀ w : WidgetLocal, effectiveSubmitted p w = w.localIsSubmitted := by
      intro w
      rw [effectiveSubmitted, hext]
    rcases hr1 : effectiveRating p st with - | r
    · have hfst : (handleSubmit p st).1 = st := by
        rw [handleSubmit, hr1]
      rw [hfst, handleSubmit, hr1]
    · rcases hsb : st.localIsSubmitted with - | -
      · -- the first submit succeeds locally, setting the local flag
        have hfst : (handleSubmit p st).1 = { st with localIsSubmitted := true } := by
          rw [handleSubmit, hr1, hes st, hsb]
          simp [hc]
        rw [hfst, handleSubmit, hes]
        rcases effectiveRating p { st with localIsSubmitted := true } <;> rfl
      · have hfst : (handleSubmit p st).1 = st := by
          rw [handleSubmit, hr1, hes st, hsb]
        rw [hfst, handleSubmit, hr1, hes st, hsb]
  · intro hext
    rw [handleSubmit, effectiveSubmitted, hext]
    rcases effectiveRating p st <;> rfl

/-- C5 (witness): an uncontrolled widget holding rating 3 submits by setting
its local flag, and a second submit attempt invokes no callback. -/
theorem handleSubmit_guard_and_callback_witness :
    handleSubmit uncontrolledProps widgetRated =
      ({ localRating := some 3, localIsSubmitted := true }, []) ∧
    (handleSubmit uncontrolledProps
      (handleSubmit uncontrolledProps widgetRated).1).2 = [] := by
  have h := handleSubmit_guard_and_callback uncontrolledProps widgetRated
  exact ⟨h.2.2.1 3 rfl rfl rfl, h.2.2.2.1 rfl rfl⟩

/-- C6 (confirmed): for every ratings map the derived progress percentage
equals `round(100 * submittedCount / 100)` with `N = 100`, and on a map with
exactly 37 submitted entries it is 37. -/
theorem calculateProgress_round_formula :
    (∀ m : RatingsMap,
      calculateProgress m = round ((100 * (submittedCount m : ℚ)) / 100)) ∧
    calculateProgress progressMap37 = 37 := by
  constructor
  · intro m
    rw [calculateProgress_eq_submittedCount]
    rw [mul_comm, mul_div_assoc, div_self (by norm_num : (100 : ℚ) ≠ 0),
      mul_one]
    exact (round_natCast _).symm
  · rw [calculateProgress_eq_submittedCount]
    decide

/-- C7 (confirmed): `isItemLoaded(r)` returns true iff every item index in
the inclusive range `[r*ITEMS_PER_ROW,
min(r*ITEMS_PER_ROW + ITEMS_PER_ROW - 1, TOTAL_ITEMS - 1)]` is in the loaded
set, for every row index and every loaded set. -/
theorem isItemLoaded_iff_row_range_loaded (loaded : Finset ℕ) (r : ℕ) :
    isItemLoaded loaded r = true ↔
    ∀ j ∈ Finset.Icc (r * ITEMS_PER_ROW)
      (min (r * ITEMS_PER_ROW + (ITEMS_PER_ROW - 1)) (TOTAL_ITEMS - 1)),
      j ∈ loaded := by
  rw [isItemLoaded]
  simp only [ITEMS_PER_ROW, TOTAL_ITEMS]
  rcases le_or_lt r 49 with h | h
  · have hn : (min ((2 : ℕ) : ℤ)
        (((100 : ℕ) : ℤ) - ((r * 2 : ℕ) : ℤ))).toNat = 2 := by
      omega
    rw [hn]
    have hmin : min (r * 2 + (2 - 1)) (100 - 1) = r * 2 + 1 := by omega
    rw [hmin]
    constructor
    · intro hall j hj
      rw [Finset.mem_Icc] at hj
      simp only [List.range_succ, List.range_zero, List.all_cons, List.all_nil,
        List.nil_append, List.cons_append, Bool.and_eq_true,
        decide_eq_true_eq] at hall
      have : j = r * 2 ∨ j = r * 2 + 1 := by omega
      rcases this with rfl | rfl
      · simpa using hall.1
      · simpa using hall.2.1
    · intro hall
      simp only [List.range_succ, List.range_zero, List.all_cons, List.all_nil,
        List.nil_append, List.cons_append, Bool.and_eq_true,
        decide_eq_true_eq]
      refine ⟨?_, ?_, trivial⟩
      · exact hall _ (by rw [Finset.mem_Icc]; omega)
      · exact hall _ (by rw [Finset.mem_Icc]; omega)
  · have hn : (min ((2 : ℕ) : ℤ)
        (((100 : ℕ) : ℤ) - ((r * 2 : ℕ) : ℤ))).toNat = 0 := by
      omega
    rw [hn]
    simp only [List.range_zero, List.all_nil, true_iff]
    intro j hj
    rw [Finset.mem_Icc] at hj
    omega

/-- C7 (witness): with items 0 and 1 loaded, row 0 is reported loaded, via
the range characterization. -/
theorem isItemLoaded_iff_row_range_loaded_witness :
    isItemLoaded (Finset.Icc 0 1) 0 = true :=
  (isItemLoaded_iff_row_range_loaded (Finset.Icc 0 1) 0).mpr (by decide)

/-- C8 (confirmed): scroll-to-bottom triggers `loadMoreItems` over the full
row range `(0, 49)`; after it resolves the loaded count is 100, the viewport
offset is `TOTAL_ROWS * itemHeight - listHeight`, at-bottom is true and
at-top is false — for any prior state whose loaded set is within the
universe. -/
theorem scrollToBottom_full_load_and_jump (itemHeight listHeight : ℤ)
    (st : ViewState) (h : st.loadedItems ⊆ Finset.range TOTAL_ITEMS) :
    (scrollToBottom itemHeight listHeight st).1 = (0, 49) ∧
    (scrollToBottom itemHeight listHeight st).2.numItemsLoaded = 100 ∧
    (scrollToBottom itemHeight listHeight st).2.scrollOffset =
      (TOTAL_ROWS : ℤ) * itemHeight - listHeight ∧
    (scrollToBottom itemHeight listHeight st).2.isAtBottom = true ∧
    (scrollToBottom itemHeight listHeight st).2.isAtTop = false := by
  have hfull : loadComplete st.loadedItems 0 (TOTAL_ROWS - 1) =
      Finset.Icc 0 99 := by
    rw [loadComplete]
    have hr : itemRange 0 (TOTAL_ROWS - 1) = Finset.Icc 0 99 := by decide
    rw [hr]
    apply Finset.union_eq_right.mpr
    intro x hx
    have := h hx
    rw [Finset.mem_range] at this
    unfold TOTAL_ITEMS at this
    rw [Finset.mem_Icc]
    omega
  refine ⟨rfl, ?_, rfl, rfl, rfl⟩
  show (loadComplete st.loadedItems 0 (TOTAL_ROWS - 1)).card = 100
  rw [hfull]
  decide

/-- C8 (witness): from the initial viewport state with item height 150 and
list height 450, scroll-to-bottom requests rows 0..49 and ends fully loaded
at the bottom. -/
theorem scrollToBottom_full_load_and_jump_witness :
    (scrollToBottom 150 450 viewInit).1 = (0, 49) ∧
    (scrollToBottom 150 450 viewInit).2.numItemsLoaded = 100 ∧
    (scrollToBottom 150 450 viewInit).2.scrollOffset =
      (TOTAL_ROWS : ℤ) * 150 - 450 ∧
    (scrollToBottom 150 450 viewInit).2.isAtBottom = true ∧
    (scrollToBottom 150 450 viewInit).2.isAtTop = false :=
  scrollToBottom_full_load_and_jump 150 450 viewInit (by simp [viewInit])

/-- C9 (confirmed): `handleRatingChange(id, null)` leaves the entry for `id`
present with rating `null`, preserving the previous submitted flag (false if
the entry was absent); the entry is not removed. -/
theorem handleRatingChange_null_keeps_entry (m : RatingsMap) (id : String) :
    lookupRating (handleRatingChange id none m) id =
      some { rating := none
             isSubmitted :=
               match lookupRating m id with
               | some e => e.isSubmitted
               | none => false } :=
  lookup_upsert_self m id _

/-- C10 (confirmed): `handleRatingSubmit(id, r)` performs no validation: for
every integer `r` and every prior map it overwrites the entry with
`{ rating: r, isSubmitted: true }`. -/
theorem handleRatingSubmit_unconditional_overwrite (m : RatingsMap)
    (id : String) (r : ℤ) :
    lookupRating (handleRatingSubmit id r m) id =
      some { rating := some r, isSubmitted := true } :=
  lookup_upsert_self m id _
